import Mathlib

/-!
Verification development for the MediLink client application.

The three non-trivial subsystems are embedded shallowly:
* the rule-based symptom triage fallback (`src/medilink-web/src/services/symptomChecker.ts`),
* the AQI breakpoint interpolation (AQI page),
* the medicine reminder scheduler (`src/medilink-web/src/pages/Reminders.tsx`).

JavaScript strings are modelled as Lean `String`; the string operations the
code uses (`toLowerCase`, `trim`, `includes`, `split`) are implemented over
`String.data` by structural recursion so that concrete instances evaluate
inside the kernel. ASCII suffices for every string the program manipulates.
-/

/-- ASCII whitespace, the subset of JavaScript's `trim` set that occurs in
the program's data. -/
def isJsWhitespace (c : Char) : Bool :=
  c == ' ' || c == '\t' || c == '\n' || c == '\r'

/-- Characters of a string with leading and trailing whitespace removed,
the model of `String.prototype.trim`. -/
def trimChars (cs : List Char) : List Char :=
  ((cs.dropWhile isJsWhitespace).reverse.dropWhile isJsWhitespace).reverse

/-- Model of `String.prototype.trim`. -/
def trimStr (s : String) : String :=
  String.mk (trimChars s.data)

/-- Model of `String.prototype.toLowerCase` (ASCII). -/
def toLowerStr (s : String) : String :=
  String.mk (s.data.map Char.toLower)

/-- `symptoms.toLowerCase().trim()`, the normalisation the symptom checker
applies to its input. -/
def normalizeSymptom (s : String) : String :=
  trimStr (toLowerStr s)

/-- Whether `needle` is an initial segment of `hay`. -/
def startsWithChars : List Char → List Char → Bool
  | [], _ => true
  | _ :: _, [] => false
  | a :: as, b :: bs => a == b && startsWithChars as bs

/-- Whether `needle` occurs contiguously inside `hay`; the model of
`String.prototype.includes` (empty needle matches). -/
def containsChars (hay needle : List Char) : Bool :=
  if startsWithChars needle hay then true
  else
    match hay with
    | [] => false
    | _ :: rest => containsChars rest needle

/-- `hay.includes(needle)` on strings. -/
def strIncludes (hay needle : String) : Bool :=
  containsChars hay.data needle.data

/-- Severity tier of a triage result (`'mild' | 'moderate' | 'severe'`). -/
inductive Severity where
  | mild
  | moderate
  | severe
deriving DecidableEq, BEq, Repr

/-- One entry of the symptom knowledge base (interface `SymptomData`). -/
structure SymptomData where
  conditions : List String
  recommendations : List String
  severity : Severity
  advice : String
deriving DecidableEq, BEq, Repr

/-- The triage result (interface `SymptomAnalysis`). -/
structure SymptomAnalysis where
  possibleConditions : List String
  recommendations : List String
  severity : Severity
  advice : String
deriving DecidableEq, BEq, Repr

/-- The static symptom knowledge base (`symptomDatabase` in
`symptomChecker.ts`), as an association list in the source's insertion
order: `Object.entries` enumerates string keys in insertion order, which is
what the partial-match loop iterates over. -/
def symptomDatabase : List (String × SymptomData) := [
  ("diarrhea", {
    conditions := ["Gastroenteritis (stomach flu)", "Food poisoning", "Irritable Bowel Syndrome (IBS)", "Bacterial infection"],
    recommendations := [
      "Drink plenty of fluids (water, electrolyte solutions, clear broths)",
      "Avoid dairy, fatty foods, and caffeine",
      "Eat BRAT diet: Bananas, Rice, Applesauce, Toast",
      "Consider oral rehydration solutions to prevent dehydration"],
    severity := .moderate,
    advice := "Diarrhea can lead to dehydration quickly. Drink plenty of fluids and seek medical attention if it lasts more than 2 days, you have signs of dehydration (dry mouth, dark urine, dizziness), or if you see blood in stool." }),
  ("loose stool", {
    conditions := ["Gastroenteritis", "Food intolerance", "IBS", "Bacterial infection"],
    recommendations := [
      "Stay hydrated with water and electrolyte drinks",
      "Avoid spicy, fatty, or dairy foods",
      "Eat bland foods like rice, bananas, and toast",
      "Rest and avoid strenuous activity"],
    severity := .moderate,
    advice := "Monitor your symptoms. If loose stools persist for more than 3 days or are accompanied by fever, blood, or severe dehydration, consult a healthcare provider." }),
  ("constipation", {
    conditions := ["Dehydration", "Dietary fiber deficiency", "IBS", "Medication side effects"],
    recommendations := [
      "Increase fiber intake (fruits, vegetables, whole grains)",
      "Drink plenty of water (8-10 glasses daily)",
      "Engage in regular physical activity",
      "Consider over-the-counter fiber supplements or stool softeners"],
    severity := .mild,
    advice := "Most constipation resolves with dietary changes and increased hydration. See a doctor if it lasts more than 2 weeks, is severe, or accompanied by blood in stool." }),
  ("nausea", {
    conditions := ["Gastroenteritis", "Food poisoning", "Motion sickness", "Pregnancy", "Medication side effects"],
    recommendations := [
      "Eat small, bland meals throughout the day",
      "Avoid strong smells and spicy foods",
      "Stay hydrated with small sips of water or ginger tea",
      "Get fresh air and rest in a quiet environment"],
    severity := .moderate,
    advice := "Nausea is usually temporary. Seek medical attention if it persists for more than 2 days, you cannot keep fluids down, or if you experience severe vomiting." }),
  ("vomiting", {
    conditions := ["Gastroenteritis", "Food poisoning", "Viral infection", "Migraine", "Motion sickness"],
    recommendations := [
      "Rest and avoid solid foods for a few hours",
      "Sip small amounts of clear fluids (water, electrolyte solutions)",
      "Gradually reintroduce bland foods (crackers, toast)",
      "Avoid dairy, caffeine, and alcohol"],
    severity := .moderate,
    advice := "Vomiting can cause dehydration. If vomiting persists for more than 24 hours, you cannot keep fluids down, see blood in vomit, or have signs of dehydration, seek immediate medical care." }),
  ("stomach pain", {
    conditions := ["Gastritis", "Indigestion", "IBS", "Appendicitis (if severe)", "Food poisoning"],
    recommendations := [
      "Avoid spicy, fatty, or acidic foods",
      "Eat smaller, more frequent meals",
      "Apply a warm compress to the abdomen",
      "Consider antacids for indigestion"],
    severity := .moderate,
    advice := "Mild stomach pain often resolves with dietary changes. Seek immediate medical attention if pain is severe, persistent, located in lower right abdomen, or accompanied by fever, vomiting, or blood in stool." }),
  ("abdominal pain", {
    conditions := ["Gastritis", "Indigestion", "IBS", "Appendicitis (if severe)", "Food poisoning"],
    recommendations := [
      "Avoid spicy, fatty, or acidic foods",
      "Eat smaller, more frequent meals",
      "Apply a warm compress to the abdomen",
      "Consider antacids for indigestion"],
    severity := .moderate,
    advice := "Mild abdominal pain often resolves with dietary changes. Seek immediate medical attention if pain is severe, persistent, located in lower right abdomen, or accompanied by fever, vomiting, or blood in stool." }),
  ("cough", {
    conditions := ["Common cold", "Upper respiratory infection", "Bronchitis", "Allergies", "Asthma"],
    recommendations := [
      "Stay hydrated with warm fluids (tea, soup)",
      "Use a humidifier or steam inhalation",
      "Avoid irritants like smoke and dust",
      "Get plenty of rest and consider cough drops"],
    severity := .moderate,
    advice := "Most coughs resolve within 1-2 weeks. See a doctor if cough persists for more than 3 weeks, produces blood, is accompanied by chest pain or difficulty breathing, or if you have a high fever." }),
  ("sore throat", {
    conditions := ["Viral pharyngitis", "Strep throat (bacterial)", "Common cold", "Allergies"],
    recommendations := [
      "Gargle with warm salt water several times daily",
      "Drink warm fluids (tea with honey, soup)",
      "Use throat lozenges or sprays",
      "Rest your voice and avoid irritants"],
    severity := .moderate,
    advice := "Most sore throats are viral and resolve in 3-7 days. See a doctor if symptoms persist, you have difficulty swallowing, high fever, or white spots on tonsils (possible strep throat)." }),
  ("runny nose", {
    conditions := ["Common cold", "Allergies", "Sinusitis", "Viral infection"],
    recommendations := [
      "Use saline nasal spray or rinse",
      "Stay hydrated",
      "Use a humidifier",
      "Consider over-the-counter decongestants or antihistamines"],
    severity := .mild,
    advice := "Runny nose is usually part of a cold or allergies. If it persists for more than 10 days, is accompanied by fever, or you have facial pain, consult a healthcare provider." }),
  ("nasal congestion", {
    conditions := ["Common cold", "Allergies", "Sinusitis", "Viral infection"],
    recommendations := [
      "Use saline nasal spray or rinse",
      "Apply warm compress to face",
      "Use a humidifier",
      "Consider over-the-counter decongestants"],
    severity := .mild,
    advice := "Nasal congestion usually resolves with a cold. See a doctor if it lasts more than 10 days, is accompanied by fever or facial pain, or if you have difficulty breathing." }),
  ("difficulty breathing", {
    conditions := ["Asthma", "Anxiety", "Pneumonia", "COPD", "Allergic reaction"],
    recommendations := [
      "Sit upright and try to stay calm",
      "Avoid triggers (allergens, smoke)",
      "Use prescribed inhaler if available",
      "Seek immediate medical attention if severe"],
    severity := .severe,
    advice := "Difficulty breathing requires immediate medical attention. Go to the emergency room if breathing is severely impaired, you have chest pain, or your lips/fingernails turn blue." }),
  ("headache", {
    conditions := ["Tension headache", "Migraine", "Sinus headache", "Dehydration", "Eye strain"],
    recommendations := [
      "Rest in a dark, quiet room",
      "Apply cold or warm compress to forehead",
      "Stay hydrated",
      "Consider over-the-counter pain relievers (ibuprofen, acetaminophen)"],
    severity := .moderate,
    advice := "Most headaches are tension-related and resolve with rest and pain relievers. Seek immediate medical attention if headache is sudden and severe (thunderclap), accompanied by fever/stiff neck, or if you have vision changes or confusion." }),
  ("migraine", {
    conditions := ["Migraine", "Tension headache", "Cluster headache"],
    recommendations := [
      "Rest in a dark, quiet room",
      "Apply cold compress to head",
      "Avoid triggers (bright lights, loud noises)",
      "Consider prescription migraine medication if available"],
    severity := .moderate,
    advice := "Migraines can be debilitating. If you experience frequent migraines, see a doctor for proper diagnosis and treatment. Seek immediate care if migraine is accompanied by vision loss, confusion, or weakness." }),
  ("dizziness", {
    conditions := ["Dehydration", "Low blood pressure", "Inner ear infection", "Anemia", "Vertigo"],
    recommendations := [
      "Sit or lie down immediately",
      "Stay hydrated",
      "Move slowly when changing positions",
      "Avoid sudden head movements"],
    severity := .moderate,
    advice := "Dizziness can be caused by many factors. If it persists, is severe, or is accompanied by chest pain, difficulty speaking, or loss of consciousness, seek immediate medical attention." }),
  ("ear pain", {
    conditions := ["Ear infection (otitis media)", "Swimmer's ear", "Eustachian tube dysfunction", "TMJ disorder"],
    recommendations := [
      "Apply warm compress to affected ear",
      "Use over-the-counter pain relievers",
      "Avoid inserting anything into the ear",
      "Keep ear dry if it's an outer ear infection"],
    severity := .moderate,
    advice := "Ear pain, especially in children, should be evaluated by a doctor. See a healthcare provider if pain is severe, persists more than 2 days, or is accompanied by fever, hearing loss, or discharge from the ear." }),
  ("fever", {
    conditions := ["Viral infection", "Bacterial infection", "Inflammatory condition", "Common cold", "Flu"],
    recommendations := [
      "Stay hydrated with water and electrolyte drinks",
      "Rest and get plenty of sleep",
      "Take fever-reducing medication (acetaminophen or ibuprofen)",
      "Use cool compresses or lukewarm bath"],
    severity := .moderate,
    advice := "Fever is usually a sign of infection. Seek medical attention if fever is above 103°F (39.4°C), persists for more than 3 days, is accompanied by severe symptoms, or if you have a weakened immune system." }),
  ("chills", {
    conditions := ["Viral infection", "Bacterial infection", "Fever", "Flu", "Common cold"],
    recommendations := [
      "Stay warm with blankets",
      "Rest and stay hydrated",
      "Monitor temperature",
      "Take fever-reducing medication if needed"],
    severity := .moderate,
    advice := "Chills often accompany fever and infections. If chills are severe, persistent, or accompanied by high fever, seek medical attention." }),
  ("fatigue", {
    conditions := ["Anemia", "Sleep disorder", "Chronic fatigue syndrome", "Depression", "Thyroid issues", "Viral infection"],
    recommendations := [
      "Ensure adequate sleep (7-9 hours)",
      "Maintain a balanced diet",
      "Stay hydrated",
      "Engage in light exercise"],
    severity := .moderate,
    advice := "Fatigue can have many causes. If it persists for more than 2 weeks, is severe, or is accompanied by other symptoms like weight loss or fever, consult a healthcare provider." }),
  ("body ache", {
    conditions := ["Viral infection", "Flu", "Fibromyalgia", "Dehydration", "Overexertion"],
    recommendations := [
      "Rest and allow body to recover",
      "Apply warm compresses to sore areas",
      "Take over-the-counter pain relievers",
      "Stay hydrated and maintain gentle movement"],
    severity := .moderate,
    advice := "Body aches are common with infections like flu. If aches are severe, persistent, or accompanied by high fever, consult a healthcare provider." }),
  ("muscle pain", {
    conditions := ["Muscle strain", "Overexertion", "Fibromyalgia", "Viral infection", "Dehydration"],
    recommendations := [
      "Rest the affected muscles",
      "Apply ice for first 48 hours, then heat",
      "Gentle stretching and massage",
      "Take over-the-counter pain relievers"],
    severity := .mild,
    advice := "Most muscle pain resolves with rest and self-care. See a doctor if pain is severe, persists for more than a week, or is accompanied by swelling, redness, or fever." }),
  ("rash", {
    conditions := ["Allergic reaction", "Contact dermatitis", "Eczema", "Viral infection", "Heat rash"],
    recommendations := [
      "Avoid scratching the affected area",
      "Apply cool compresses or calamine lotion",
      "Use fragrance-free moisturizers",
      "Identify and avoid potential allergens"],
    severity := .moderate,
    advice := "Most rashes are not serious. Seek medical attention if rash is widespread, accompanied by fever, difficulty breathing, or if it appears suddenly and spreads rapidly." }),
  ("itching", {
    conditions := ["Allergic reaction", "Dry skin", "Eczema", "Contact dermatitis", "Insect bites"],
    recommendations := [
      "Apply cool compresses to itchy areas",
      "Use fragrance-free moisturizers",
      "Avoid hot showers and harsh soaps",
      "Consider over-the-counter antihistamines or hydrocortisone cream"],
    severity := .mild,
    advice := "Mild itching usually resolves with self-care. See a doctor if itching is severe, persistent, widespread, or accompanied by rash, swelling, or difficulty breathing." }),
  ("chest pain", {
    conditions := ["Heartburn/acid reflux", "Anxiety", "Muscle strain", "Angina", "Heart attack (if severe)"],
    recommendations := [
      "Rest and avoid strenuous activity",
      "If heartburn, avoid trigger foods and consider antacids",
      "Stay calm and monitor symptoms",
      "Seek immediate medical attention if severe"],
    severity := .severe,
    advice := "Chest pain can be serious. Seek IMMEDIATE emergency medical attention if pain is severe, radiates to arm/jaw, is accompanied by shortness of breath, nausea, or sweating - these could indicate a heart attack." }),
  ("back pain", {
    conditions := ["Muscle strain", "Poor posture", "Herniated disc", "Arthritis", "Kidney infection"],
    recommendations := [
      "Rest and avoid heavy lifting",
      "Apply ice for first 48 hours, then heat",
      "Practice good posture",
      "Gentle stretching and over-the-counter pain relievers"],
    severity := .moderate,
    advice := "Most back pain improves with rest and self-care. See a doctor if pain is severe, persists for more than 2 weeks, radiates down legs, or is accompanied by numbness, weakness, or loss of bladder control." }),
  ("joint pain", {
    conditions := ["Arthritis", "Injury", "Bursitis", "Gout", "Overuse"],
    recommendations := [
      "Rest the affected joint",
      "Apply ice to reduce inflammation",
      "Take over-the-counter anti-inflammatory medication",
      "Gentle range-of-motion exercises"],
    severity := .moderate,
    advice := "Joint pain can have various causes. If pain is severe, persistent, or accompanied by swelling, redness, or fever, consult a healthcare provider." }),
  ("eye pain", {
    conditions := ["Eye strain", "Dry eyes", "Conjunctivitis", "Sinusitis", "Foreign object"],
    recommendations := [
      "Rest eyes and avoid screens",
      "Use artificial tears for dry eyes",
      "Apply warm compress",
      "Avoid rubbing eyes"],
    severity := .moderate,
    advice := "Eye pain should be evaluated by a doctor, especially if it's severe, accompanied by vision changes, discharge, or sensitivity to light." }),
  ("sore muscles", {
    conditions := ["Muscle strain", "Overexertion", "Delayed onset muscle soreness (DOMS)", "Viral infection"],
    recommendations := [
      "Rest and allow muscles to recover",
      "Apply ice for first 48 hours, then heat",
      "Gentle stretching and massage",
      "Stay hydrated and take over-the-counter pain relievers"],
    severity := .mild,
    advice := "Sore muscles usually resolve with rest. If pain is severe, persists for more than a week, or is accompanied by swelling or fever, consult a healthcare provider." })]

/-- `symptomDatabase[lowerSymptoms]`: exact key lookup (keys are unique, so
the first association is the JavaScript property access). -/
def dbLookup (key : String) : Option SymptomData :=
  (symptomDatabase.find? (fun kv => kv.1 == key)).map (fun kv => kv.2)

/-- The partial-match test used by every fallback loop:
`lowerSymptoms.includes(key) || key.includes(lowerSymptoms)`. -/
def matchesDb (lowerSymptoms : String) (kv : String × SymptomData) : Bool :=
  strIncludes lowerSymptoms kv.1 || strIncludes kv.1 lowerSymptoms

/-- The secondary keyword-to-conditions map (`keywordMap` in
`extractConditionsFromSymptoms`), in insertion order. -/
def keywordMap : List (String × List String) := [
  ("stomach", ["Gastritis", "Indigestion", "IBS"]),
  ("belly", ["Gastritis", "Indigestion", "IBS"]),
  ("throat", ["Viral pharyngitis", "Strep throat", "Common cold"]),
  ("nose", ["Common cold", "Allergies", "Sinusitis"]),
  ("chest", ["Heartburn", "Anxiety", "Muscle strain"]),
  ("back", ["Muscle strain", "Poor posture", "Herniated disc"]),
  ("joint", ["Arthritis", "Injury", "Bursitis"]),
  ("muscle", ["Muscle strain", "Overexertion", "Fibromyalgia"]),
  ("eye", ["Eye strain", "Dry eyes", "Conjunctivitis"]),
  ("ear", ["Ear infection", "Swimmer's ear", "Eustachian tube dysfunction"])]

/-- Insert preserving the order decided by `le` (`le x y` means `x` may come
before `y`). -/
def insertLe {α : Type} (le : α → α → Bool) (x : α) : List α → List α
  | [] => [x]
  | y :: ys => if le x y then x :: y :: ys else y :: insertLe le x ys

/-- Stable comparison sort modelling `Array.prototype.sort` with a user
comparator (`le a b` stands for `comparator(a, b) <= 0`). -/
def sortLe {α : Type} (le : α → α → Bool) : List α → List α
  | [] => []
  | x :: xs => insertLe le x (sortLe le xs)

/-- The comparator of `extractConditionsFromSymptoms` as an order test:
an exact key first, then longer keys first. -/
def matchLe (lowerSymptoms : String) (a b : String × SymptomData) : Bool :=
  if a.1 == lowerSymptoms then true
  else if b.1 == lowerSymptoms then false
  else b.1.length ≤ a.1.length

/-- `assessSeverity`: keyword scan of the (already lowercased) input. -/
def assessSeverity (symptoms : String) : Severity :=
  let severeKeywords := ["severe", "extreme", "unbearable", "emergency",
    "chest pain", "difficulty breathing", "loss of consciousness"]
  let mildKeywords := ["mild", "slight", "minor", "occasional"]
  if severeKeywords.any (fun k => strIncludes symptoms k) then .severe
  else if mildKeywords.any (fun k => strIncludes symptoms k) then .mild
  else .moderate

/-- `extractConditionsFromSymptoms`: direct match, then best partial match
(exact first, then longest key), then keyword category, then a generic
default. -/
def extractConditionsFromSymptoms (symptoms : String) : List String :=
  let lowerSymptoms := normalizeSymptom symptoms
  match dbLookup lowerSymptoms with
  | some data => data.conditions
  | none =>
    let foundSymptoms := symptomDatabase.filter (matchesDb lowerSymptoms)
    match foundSymptoms with
    | [] =>
      match keywordMap.find? (fun kv => strIncludes lowerSymptoms kv.1) with
      | some kv => kv.2
      | none => ["General symptoms - consult a healthcare provider for proper diagnosis"]
    | _ :: _ =>
      match sortLe (matchLe lowerSymptoms) foundSymptoms with
      | [] => []
      | best :: _ => best.2.conditions

/-- The four-item recommendation bucket chosen by keyword in
`getDefaultRecommendations` when no knowledge-base key matches. -/
def keywordRecommendations (lowerSymptoms : String) : List String :=
  if strIncludes lowerSymptoms "fever" || strIncludes lowerSymptoms "temperature" then
    ["Stay hydrated with water and electrolyte drinks",
     "Rest and get plenty of sleep",
     "Take fever-reducing medication (acetaminophen or ibuprofen)",
     "Monitor temperature regularly"]
  else if strIncludes lowerSymptoms "pain" || strIncludes lowerSymptoms "ache" then
    ["Rest the affected area",
     "Apply ice for first 48 hours, then heat",
     "Take over-the-counter pain relievers (ibuprofen or acetaminophen)",
     "Avoid activities that worsen the pain"]
  else if strIncludes lowerSymptoms "cough" || strIncludes lowerSymptoms "cold" then
    ["Stay hydrated with warm fluids (tea, soup)",
     "Use a humidifier or steam inhalation",
     "Get plenty of rest",
     "Consider cough drops or over-the-counter cough medicine"]
  else if strIncludes lowerSymptoms "nausea" || strIncludes lowerSymptoms "vomit" then
    ["Eat small, bland meals throughout the day",
     "Stay hydrated with small sips of water or electrolyte drinks",
     "Avoid strong smells and spicy foods",
     "Get fresh air and rest in a quiet environment"]
  else if strIncludes lowerSymptoms "headache" || strIncludes lowerSymptoms "head" then
    ["Rest in a dark, quiet room",
     "Apply cold or warm compress to forehead",
     "Stay hydrated",
     "Consider over-the-counter pain relievers"]
  else
    ["Get adequate rest (7-9 hours of sleep)",
     "Stay hydrated with water",
     "Monitor symptoms closely",
     "Avoid triggers that may worsen symptoms"]

/-- `getDefaultRecommendations`: knowledge base first, then keyword buckets,
capped at 4 items (`slice(0, 4)`). -/
def getDefaultRecommendations (symptoms : String) : List String :=
  let lowerSymptoms := normalizeSymptom symptoms
  match dbLookup lowerSymptoms with
  | some data => data.recommendations
  | none =>
    match symptomDatabase.find? (matchesDb lowerSymptoms) with
    | some kv => kv.2.recommendations
    | none => (keywordRecommendations lowerSymptoms).take 4

/-- The severity-keyed default advice (the `switch (severity)` at the end of
`getDefaultAdvice`; its `default` branch is unreachable since all three tiers
are covered). -/
def adviceForSeverity (severity : Severity) : String :=
  match severity with
  | .severe => "These symptoms may require immediate medical attention. Please consult a healthcare provider or visit an emergency room immediately, especially if symptoms are worsening or you have difficulty breathing, chest pain, or loss of consciousness."
  | .moderate => "Monitor your symptoms closely. If they persist for more than 2-3 days, worsen, or are accompanied by fever, severe pain, or other concerning symptoms, consult a healthcare provider for proper evaluation and treatment."
  | .mild => "These symptoms are typically mild and may resolve with self-care including rest, hydration, and over-the-counter remedies. However, if symptoms persist for more than a week, worsen, or you have concerns, consult a healthcare provider for proper diagnosis."

/-- `getDefaultAdvice(severity, symptoms?)`: knowledge-base advice when the
(truthy) symptom text matches, otherwise advice keyed by severity. The
JavaScript truthiness test `if (symptoms && ...)` is the emptiness test on
the original optional string. -/
def getDefaultAdvice (severity : Severity) (symptoms : Option String) : String :=
  match symptoms with
  | none => adviceForSeverity severity
  | some s =>
    if s == "" then adviceForSeverity severity
    else
      let lowerSymptoms := normalizeSymptom s
      match dbLookup lowerSymptoms with
      | some data => data.advice
      | none =>
        match symptomDatabase.find? (matchesDb lowerSymptoms) with
        | some kv => kv.2.advice
        | none => adviceForSeverity severity

/-- `getFallbackAnalysis`: exact knowledge-base match, then first partial
match in insertion order, then the general keyword analysis. -/
def getFallbackAnalysis (symptoms : String) : SymptomAnalysis :=
  let lowerSymptoms := normalizeSymptom symptoms
  match dbLookup lowerSymptoms with
  | some data =>
    { possibleConditions := data.conditions, recommendations := data.recommendations,
      severity := data.severity, advice := data.advice }
  | none =>
    match symptomDatabase.find? (matchesDb lowerSymptoms) with
    | some kv =>
      { possibleConditions := kv.2.conditions, recommendations := kv.2.recommendations,
        severity := kv.2.severity, advice := kv.2.advice }
    | none =>
      let conditions := extractConditionsFromSymptoms lowerSymptoms
      let severity := assessSeverity lowerSymptoms
      let recommendations := getDefaultRecommendations lowerSymptoms
      let advice := getDefaultAdvice severity (some lowerSymptoms)
      { possibleConditions := conditions, recommendations := recommendations,
        severity := severity, advice := advice }

/-- Case-insensitive prefix test (the `/i` flag of the parsing regexes). -/
def ciStartsWith : List Char → List Char → Bool
  | [], _ => true
  | _ :: _, [] => false
  | a :: as, b :: bs => a.toLower == b.toLower && ciStartsWith as bs

/-- At one scan position, try to match `LABEL` (`S?` optional when `allowS`)
followed by a colon, returning the remaining text. Greedy `S?` with
backtracking: with an `s` present the colon must follow it. -/
def labelTailAt (allowS : Bool) (label rest : List Char) : Option (List Char) :=
  if ciStartsWith label rest then
    match rest.drop label.length with
    | [] => none
    | c :: t =>
      if allowS && c.toLower == 's' then
        match t with
        | ':' :: t2 => some t2
        | _ => none
      else if c == ':' then some t
      else none
  else none

/-- Leftmost match of `/LABELS?:\s*([^|]+)/i` over the text, returning the
capture group extended over its leading whitespace (the items are trimmed
afterwards, so retaining the `\s*` prefix inside the chunk is harmless and
the all-whitespace capture yields no items either way). A position where
`[^|]+` cannot consume a character fails and the scan moves right, exactly
as the regex engine does. -/
def findLabeledChunk (allowS : Bool) (label : List Char) : List Char → Option (List Char)
  | [] => none
  | c :: cs =>
    match labelTailAt allowS label (c :: cs) with
    | some after =>
      let chunk := after.takeWhile (fun ch => !(ch == '|'))
      if chunk.isEmpty then findLabeledChunk allowS label cs
      else some chunk
    | none => findLabeledChunk allowS label cs

/-- `text.split(/[,;]/)` on the characters of a capture group. -/
def splitOnSeps : List Char → List (List Char)
  | [] => [[]]
  | c :: cs =>
    if c == ',' || c == ';' then [] :: splitOnSeps cs
    else
      match splitOnSeps cs with
      | [] => [[c]]
      | h :: t => (c :: h) :: t

/-- `.split(/[,;]/).map(trim).filter(Boolean)` applied to a capture group. -/
def chunkItems (chunk : List Char) : List String :=
  ((splitOnSeps chunk).map (fun l => trimStr (String.mk l))).filter (fun s => !(s == ""))

/-- `parseAIResponse(aiText, originalSymptoms)`: labeled-field extraction
with fallback heuristics per field. Note the asymmetry of the source: the
conditions list is guarded against emptiness, the recommendations list is
not. -/
def parseAIResponse (aiText originalSymptoms : String) : SymptomAnalysis :=
  let lowerText := toLowerStr aiText
  let lowerSymptoms := toLowerStr originalSymptoms
  let conditions :=
    match findLabeledChunk true "condition".data aiText.data with
    | some chunk => (chunkItems chunk).take 3
    | none => extractConditionsFromSymptoms lowerSymptoms
  let recommendations :=
    match findLabeledChunk true "recommendation".data aiText.data with
    | some chunk => (chunkItems chunk).take 3
    | none => getDefaultRecommendations lowerSymptoms
  let severity :=
    if strIncludes lowerText "severe" || strIncludes lowerText "emergency" then Severity.severe
    else if strIncludes lowerText "mild" || strIncludes lowerText "minor" then Severity.mild
    else assessSeverity lowerSymptoms
  let advice :=
    match findLabeledChunk false "advice".data aiText.data with
    | some chunk => trimStr (String.mk chunk)
    | none => getDefaultAdvice severity none
  { possibleConditions := if conditions.length > 0 then conditions else ["General symptoms"],
    recommendations := recommendations,
    severity := severity,
    advice := advice }

/-- Outcome of the remote inference call as the `analyzeSymptoms` control
flow distinguishes it: a usable `generated_text` string (from either
accepted response shape), any other/unexpected shape, or a thrown
network/JSON error. -/
inductive RemoteOutcome where
  | failed
  | unexpectedShape
  | generatedText (t : String)
deriving DecidableEq, Repr

/-- `analyzeSymptoms(symptoms)` as a function of the input and the remote
outcome: empty-after-trim input is rejected with the thrown message; a
usable remote text is parsed; every other outcome takes the deterministic
fallback. -/
def analyzeSymptoms (symptoms : String) (remote : RemoteOutcome) : Except String SymptomAnalysis :=
  if trimStr symptoms == "" then Except.error "Please describe your symptoms"
  else Except.ok (match remote with
    | .generatedText t => parseAIResponse t symptoms
    | _ => getFallbackAnalysis symptoms)

/-- The recommendations of an analysis outcome, `none` when the call threw. -/
def resultRecommendations (e : Except String SymptomAnalysis) : Option (List String) :=
  match e with
  | .ok r => some r.recommendations
  | .error _ => none

/-- One row of an AQI breakpoint table: concentrations `[Clow, Chigh]`
mapped to index values `[Ilow, Ihigh]`. -/
structure Breakpoint where
  Clow : ℚ
  Chigh : ℚ
  Ilow : ℤ
  Ihigh : ℤ
deriving DecidableEq, Repr

/-- JavaScript `Math.round`: half-up rounding. -/
def jsRound (q : ℚ) : ℤ := ⌊q + 1/2⌋

/-- `computeSubIndex(Cp, breakpoints)`: linear interpolation inside the
first interval containing the concentration, `undefined` outside all
intervals. -/
def computeSubIndex (bps : List Breakpoint) (Cp : ℚ) : Option ℤ :=
  match bps with
  | [] => none
  | bp :: rest =>
    if bp.Clow ≤ Cp ∧ Cp ≤ bp.Chigh then
      some (jsRound ((bp.Ihigh - bp.Ilow) / (bp.Chigh - bp.Clow) * (Cp - bp.Clow) + bp.Ilow))
    else computeSubIndex rest Cp

/-- US EPA PM2.5 breakpoints (`pm25Breaks` in `usAqiFromComponents`). -/
def usPm25Breaks : List Breakpoint :=
  [ ⟨0, 12, 0, 50⟩,
    ⟨121/10, 354/10, 51, 100⟩,
    ⟨355/10, 554/10, 101, 150⟩,
    ⟨555/10, 1504/10, 151, 200⟩,
    ⟨1505/10, 2504/10, 201, 300⟩,
    ⟨2505/10, 3504/10, 301, 400⟩,
    ⟨3505/10, 5004/10, 401, 500⟩ ]

/-- US EPA PM10 breakpoints (`pm10Breaks` in `usAqiFromComponents`). -/
def usPm10Breaks : List Breakpoint :=
  [ ⟨0, 54, 0, 50⟩,
    ⟨55, 154, 51, 100⟩,
    ⟨155, 254, 101, 150⟩,
    ⟨255, 354, 151, 200⟩,
    ⟨355, 424, 201, 300⟩,
    ⟨425, 504, 301, 400⟩,
    ⟨505, 604, 401, 500⟩ ]

/-- Indian PM2.5 breakpoints (`pm25Breaks` in `indiaAqiFromComponents`). -/
def indiaPm25Breaks : List Breakpoint :=
  [ ⟨0, 30, 0, 50⟩,
    ⟨31, 60, 51, 100⟩,
    ⟨61, 90, 101, 200⟩,
    ⟨91, 120, 201, 300⟩,
    ⟨121, 250, 301, 400⟩,
    ⟨2501/10, 500, 401, 500⟩ ]

/-- Indian PM10 breakpoints (`pm10Breaks` in `indiaAqiFromComponents`). -/
def indiaPm10Breaks : List Breakpoint :=
  [ ⟨0, 50, 0, 50⟩,
    ⟨51, 100, 51, 100⟩,
    ⟨101, 250, 101, 200⟩,
    ⟨251, 350, 201, 300⟩,
    ⟨351, 430, 301, 400⟩,
    ⟨431, 500, 401, 500⟩ ]

/-- The pollutant concentrations of an air sample
(`AirQualityData["components"]`; each field optional in the API response).
Only PM2.5 and PM10 have breakpoint tables. -/
structure AirComponents where
  pm2_5 : Option ℚ
  pm10 : Option ℚ
  o3 : Option ℚ := none
  no2 : Option ℚ := none
  so2 : Option ℚ := none
  co : Option ℚ := none
deriving DecidableEq, Repr

/-- Shared tail of both AQI functions: collect the computable sub-indices in
pollutant order and take `Math.max` of them, `undefined` when none exists. -/
def aqiFromTables (pm25Breaks pm10Breaks : List Breakpoint) (components : Option AirComponents) : Option ℤ :=
  match components with
  | none => none
  | some c =>
    let s1 := match c.pm2_5 with
      | some v => computeSubIndex pm25Breaks v
      | none => none
    let s2 := match c.pm10 with
      | some v => computeSubIndex pm10Breaks v
      | none => none
    match ([s1, s2].filterMap id) with
    | [] => none
    | x :: xs => some (xs.foldl max x)

/-- `usAqiFromComponents`. -/
def usAqiFromComponents (components : Option AirComponents) : Option ℤ :=
  aqiFromTables usPm25Breaks usPm10Breaks components

/-- `indiaAqiFromComponents`. -/
def indiaAqiFromComponents (components : Option AirComponents) : Option ℤ :=
  aqiFromTables indiaPm25Breaks indiaPm10Breaks components

/-- The repeat mode of a reminder (`"none" | "daily" | "weekly"`). -/
inductive RepeatK where
  | none
  | daily
  | weekly
deriving DecidableEq, BEq, Repr

/-- A medicine reminder (type `Reminder` in `Reminders.tsx`). The source
field `repeat` is a Lean keyword and is embedded as `repeatMode`. -/
structure Reminder where
  id : String
  title : String
  time : String
  enabled : Bool
  repeatMode : RepeatK
  daysOfWeek : Option (List Nat)
  lastTriggeredKey : Option String
  nextSnoozeAt : Option Nat
deriving DecidableEq, BEq, Repr

/-- The wall-clock facts one scheduler interval callback samples: current
`HH:MM` string, the composite `yyyy-mm-dd-HH:MM` key, weekday index and
`Date.now()` in epoch milliseconds. -/
structure Tick where
  currentTime : String
  currentKey : String
  dow : Nat
  nowMs : Nat
deriving DecidableEq, Repr

/-- The scheduler's snooze test `r.nextSnoozeAt && Date.now() >= r.nextSnoozeAt`
(a zero timestamp is falsy in JavaScript, hence the extra test). -/
def snoozeDue (r : Reminder) (nowMs : Nat) : Bool :=
  match r.nextSnoozeAt with
  | some t => decide (t ≠ 0) && decide (t ≤ nowMs)
  | none => false

/-- The weekly-day filter: a weekly reminder passes only when `daysOfWeek`
is present and contains the current weekday; other repeat modes always
pass. -/
def weeklyOk (r : Reminder) (dow : Nat) : Bool :=
  match r.repeatMode with
  | .weekly =>
    match r.daysOfWeek with
    | some ds => ds.contains dow
    | none => false
  | _ => true

/-- Whether one enabled reminder fires at this tick: the snooze check first,
otherwise the time match guarded by the dedup key and the weekly filter —
the sequence of `continue`/`break` tests of the interval loop flattened to
one predicate. -/
def eligible (r : Reminder) (t : Tick) : Bool :=
  r.enabled &&
    (snoozeDue r t.nowMs ||
      (r.time == t.currentTime &&
        !(r.lastTriggeredKey == some t.currentKey) &&
        weeklyOk r t.dow))

/-- The reminder the tick triggers: the first eligible one in list order
(`for ... of reminders` with `break` after a trigger). -/
def selectTrigger (rs : List Reminder) (t : Tick) : Option Reminder :=
  rs.find? (fun r => eligible r t)

/-- The per-reminder state change of `triggerReminder`: record the composite
key, disable a one-shot reminder. `nextSnoozeAt` is left untouched — the
source never clears it. -/
def triggerUpdate (r : Reminder) (currentKey : String) : Reminder :=
  { r with lastTriggeredKey := some currentKey,
           enabled := if r.repeatMode = RepeatK.none then false else r.enabled }

/-- The list update of `triggerReminder(rem, currentKey)`: map over the
collection touching the reminders whose id matches. -/
def triggerReminder (rs : List Reminder) (remId : String) (currentKey : String) : List Reminder :=
  rs.map (fun x => if x.id == remId then triggerUpdate x currentKey else x)

/-- One scheduler interval callback: trigger the first eligible reminder, if
any, and leave the collection unchanged otherwise. -/
def schedulerTick (rs : List Reminder) (t : Tick) : List Reminder :=
  match selectTrigger rs t with
  | some r => triggerReminder rs r.id t.currentKey
  | none => rs

/-- `addReminder`: reject blank title or time, otherwise append a fresh
reminder; `daysOfWeek` is populated (sorted) only for weekly repeat. -/
def addReminder (formTitle formTime : String) (formEnabled : Bool)
    (formRepeat : RepeatK) (formWeekDays : List Nat) (newId : String)
    (prev : List Reminder) : List Reminder :=
  if trimStr formTitle == "" || formTime == "" then prev
  else prev ++ [{
    id := newId,
    title := trimStr formTitle,
    time := formTime,
    enabled := formEnabled,
    repeatMode := formRepeat,
    daysOfWeek := if formRepeat = RepeatK.weekly
      then some (sortLe (fun a b => decide (a ≤ b)) formWeekDays)
      else none,
    lastTriggeredKey := none,
    nextSnoozeAt := none }]

/-- `toggleReminder(id)`. -/
def toggleReminder (rs : List Reminder) (id : String) : List Reminder :=
  rs.map (fun r => if r.id == id then { r with enabled := !r.enabled } else r)

/-- `removeReminder(id)`. -/
def removeReminder (rs : List Reminder) (id : String) : List Reminder :=
  rs.filter (fun r => !(r.id == id))

/-- `snoozeActive(minutes)` applied to the active reminder id: set
`nextSnoozeAt` to now plus the duration. -/
def snoozeActive (rs : List Reminder) (activeId : String) (minutes nowMs : Nat) : List Reminder :=
  rs.map (fun r => if r.id == activeId
    then { r with nextSnoozeAt := some (nowMs + minutes * 60 * 1000) }
    else r)

/-- A parsed JSON value, the shape `JSON.parse` can return. -/
inductive Json where
  | null
  | bool (b : Bool)
  | num (q : ℚ)
  | str (s : String)
  | arr (elems : List Json)
  | obj (fields : List (String × Json))

/-- Property access on a parsed JSON object; with duplicate keys
`JSON.parse` keeps the last occurrence. -/
def getField (fields : List (String × Json)) (key : String) : Option Json :=
  fields.foldl (fun acc kv => if kv.1 == key then some kv.2 else acc) none

/-- `typeof candidate.k === "string"` for a field of a parsed object. -/
def isStringField (fields : List (String × Json)) (key : String) : Bool :=
  match getField fields key with
  | some (.str _) => true
  | _ => false

/-- `typeof candidate.k === "boolean"` for a field of a parsed object. -/
def isBoolField (fields : List (String × Json)) (key : String) : Bool :=
  match getField fields key with
  | some (.bool _) => true
  | _ => false

/-- `repeatOptions.includes(value)`. -/
def isRepeatOption (s : String) : Bool :=
  ["none", "daily", "weekly"].contains s

/-- The element test inside `isReminderArray`: a non-null object whose
`id`, `title`, `time` are strings, `enabled` a boolean and `repeat` one of
the three repeat options. A parsed array or primitive fails because its
`id` access yields no string. `daysOfWeek`, `lastTriggeredKey` and
`nextSnoozeAt` are not inspected. -/
def isReminderJson (j : Json) : Bool :=
  match j with
  | .obj fields =>
    isStringField fields "id" &&
    isStringField fields "title" &&
    isStringField fields "time" &&
    isBoolField fields "enabled" &&
    (match getField fields "repeat" with
     | some (.str s) => isRepeatOption s
     | _ => false)
  | _ => false

/-- `isReminderArray(value)`. -/
def isReminderArray (j : Json) : Bool :=
  match j with
  | .arr items => items.all isReminderJson
  | _ => false

/-- The load effect on the in-memory list for a successfully parsed storage
value: `setReminders(parsed)` runs only when `isReminderArray` accepts the
whole value, otherwise the state keeps its initial `[]`. -/
def loadReminders (parsed : Json) : List Json :=
  match parsed with
  | .arr items => if items.all isReminderJson then items else []
  | _ => []

/-- Whether a stored reminder object carries a `daysOfWeek` field (a JSON
field that is present is exactly a defined property after parsing). -/
def jsonHasDaysOfWeek (j : Json) : Bool :=
  match j with
  | .obj fields => (getField fields "daysOfWeek").isSome
  | _ => false

/-- Whether a stored reminder object has `repeat` equal to `"weekly"`. -/
def jsonRepeatIsWeekly (j : Json) : Bool :=
  match j with
  | .obj fields =>
    match getField fields "repeat" with
    | some (.str s) => s == "weekly"
    | _ => false
  | _ => false

/-- The data-model invariant on an in-memory reminder: `daysOfWeek` defined
exactly for weekly repeat. -/
def daysIffWeekly (r : Reminder) : Prop :=
  r.daysOfWeek.isSome = true ↔ r.repeatMode = RepeatK.weekly

/-- A snoozed reminder whose snooze has come due (snooze set at epoch
1000 ms). -/
def c1Rem : Reminder :=
  { id := "r1", title := "Aspirin", time := "08:00", enabled := true,
    repeatMode := .daily, daysOfWeek := none, lastTriggeredKey := none,
    nextSnoozeAt := some 1000 }

/-- A tick after the snooze deadline, at a wall-clock minute that does not
match the reminder's own time. -/
def c1TickA : Tick :=
  { currentTime := "09:00", currentKey := "2025-01-01-09:00", dow := 3, nowMs := 5000 }

/-- The next tick, five seconds later, same minute. -/
def c1TickB : Tick :=
  { currentTime := "09:00", currentKey := "2025-01-01-09:00", dow := 3, nowMs := 10000 }

/-- A snooze-due reminder placed second in the list. -/
def c2Snoozer : Reminder :=
  { id := "rB", title := "Snoozed med", time := "07:00", enabled := true,
    repeatMode := .daily, daysOfWeek := none, lastTriggeredKey := none,
    nextSnoozeAt := some 1000 }

/-- A fresh time-matched reminder placed first in the list. -/
def c2Timed : Reminder :=
  { id := "rA", title := "Timed med", time := "08:00", enabled := true,
    repeatMode := .daily, daysOfWeek := none, lastTriggeredKey := none,
    nextSnoozeAt := none }

/-- A tick at 08:00, past the snooze deadline of `c2Snoozer`. -/
def c2Tick : Tick :=
  { currentTime := "08:00", currentKey := "2025-01-01-08:00", dow := 3, nowMs := 2000 }

/-- A reminder already triggered in the current minute and carrying no
snooze. -/
def c3Rem : Reminder :=
  { id := "r1", title := "Med", time := "08:00", enabled := true,
    repeatMode := .daily, daysOfWeek := none,
    lastTriggeredKey := some "2025-01-01-08:00", nextSnoozeAt := none }

/-- A reminder already triggered in the current minute but still carrying a
due snooze timestamp. -/
def c3xRem : Reminder :=
  { id := "r1", title := "Med", time := "08:00", enabled := true,
    repeatMode := .daily, daysOfWeek := none,
    lastTriggeredKey := some "2025-01-01-08:00", nextSnoozeAt := some 1000 }

/-- A later tick within the same calendar minute `2025-01-01 08:00`. -/
def c3Tick : Tick :=
  { currentTime := "08:00", currentKey := "2025-01-01-08:00", dow := 3, nowMs := 2000 }

/-- A stored reminder object that passes shape validation. -/
def goodRemJson : Json :=
  .obj [("id", .str "a"), ("title", .str "T"), ("time", .str "08:00"),
        ("enabled", .bool true), ("repeat", .str "daily")]

/-- A stored reminder object that passes shape validation while violating
the `daysOfWeek`-iff-weekly invariant: `repeat` is `"daily"` yet
`daysOfWeek` is present. -/
def cxStoredElem : Json :=
  .obj [("id", .str "a"), ("title", .str "Aspirin"), ("time", .str "08:00"),
        ("enabled", .bool true), ("repeat", .str "daily"),
        ("daysOfWeek", .arr [.num 1])]

theorem findFirst_append_of_all_neg {α : Type} (p : α → Bool) (l1 l2 : List α)
    (h : ∀ x ∈ l1, p x = false) : (l1 ++ l2).find? p = l2.find? p := by
  induction l1 with
  | nil => rfl
  | cons a as ih =>
    rw [List.cons_append, List.find?_cons_of_neg _ (by simp [h a (List.mem_cons_self a as)])]
    exact ih (fun x hx => h x (List.mem_cons_of_mem _ hx))

theorem map_eq_self_of_fixed {α : Type} (f : α → α) {l : List α}
    (h : ∀ x ∈ l, f x = x) : l.map f = l := by
  induction l with
  | nil => rfl
  | cons a as ih =>
    rw [List.map_cons, h a (List.mem_cons_self a as),
      ih (fun x hx => h x (List.mem_cons_of_mem _ hx))]

theorem insertLe_ne_nil {α : Type} (le : α → α → Bool) (x : α) (l : List α) :
    insertLe le x l ≠ [] := by
  cases l with
  | nil => simp [insertLe]
  | cons y ys =>
    simp only [insertLe]
    split <;> simp

theorem mem_of_mem_insertLe {α : Type} {le : α → α → Bool} {x y : α} {l : List α}
    (h : y ∈ insertLe le x l) : y = x ∨ y ∈ l := by
  induction l with
  | nil => simpa [insertLe] using h
  | cons a as ih =>
    simp only [insertLe] at h
    split at h
    · rcases List.mem_cons.mp h with h | h
      · exact Or.inl h
      · exact Or.inr h
    · rcases List.mem_cons.mp h with h | h
      · exact Or.inr (by simp [h])
      · rcases ih h with h | h
        · exact Or.inl h
        · exact Or.inr (List.mem_cons_of_mem _ h)

theorem mem_of_mem_sortLe {α : Type} {le : α → α → Bool} {y : α} {l : List α}
    (h : y ∈ sortLe le l) : y ∈ l := by
  induction l generalizing y with
  | nil => simp [sortLe] at h
  | cons a as ih =>
    simp only [sortLe] at h
    rcases mem_of_mem_insertLe h with h | h
    · simp [h]
    · exact List.mem_cons_of_mem _ (ih h)

theorem symptomDatabase_wf : ∀ kv ∈ symptomDatabase,
    kv.2.conditions ≠ [] ∧ kv.2.recommendations ≠ [] ∧ kv.2.recommendations.length ≤ 4 := by
  have h : symptomDatabase.all (fun kv =>
      !(kv.2.conditions == []) && (!(kv.2.recommendations == []) &&
        decide (kv.2.recommendations.length ≤ 4))) = true := by decide
  intro kv hkv
  have := List.all_eq_true.mp h kv hkv
  simp only [Bool.and_eq_true, Bool.not_eq_true', beq_eq_false_iff_ne, ne_eq,
    decide_eq_true_eq] at this
  exact ⟨this.1, this.2.1, this.2.2⟩

theorem keywordMap_wf : ∀ kv ∈ keywordMap, kv.2 ≠ [] := by
  have h : keywordMap.all (fun kv => !(kv.2 == [])) = true := by decide
  intro kv hkv
  have := List.all_eq_true.mp h kv hkv
  simpa using this

theorem dbLookup_some_mem {key : String} {d : SymptomData}
    (h : dbLookup key = some d) : ∃ kv ∈ symptomDatabase, kv.2 = d := by
  unfold dbLookup at h
  rcases Option.map_eq_some'.mp h with ⟨kv, hfind, hsnd⟩
  exact ⟨kv, List.mem_of_find?_eq_some hfind, hsnd⟩

theorem keywordRecommendations_length (s : String) :
    (keywordRecommendations s).length = 4 := by
  unfold keywordRecommendations
  split_ifs <;> rfl

theorem extractConditionsFromSymptoms_ne_nil (s : String) :
    extractConditionsFromSymptoms s ≠ [] := by
  unfold extractConditionsFromSymptoms
  cases hdb : dbLookup (normalizeSymptom s) with
  | some data =>
    simp only [hdb]
    obtain ⟨kv, hmem, hkv⟩ := dbLookup_some_mem hdb
    exact hkv ▸ (symptomDatabase_wf kv hmem).1
  | none =>
    simp only [hdb]
    cases hfound : symptomDatabase.filter (matchesDb (normalizeSymptom s)) with
    | nil =>
      simp only [hfound]
      cases hkw : keywordMap.find? (fun kv => strIncludes (normalizeSymptom s) kv.1) with
      | some kv =>
        simp only [hkw]
        exact keywordMap_wf kv (List.mem_of_find?_eq_some hkw)
      | none => simp [hkw]
    | cons a as =>
      simp only [hfound]
      cases hs : sortLe (matchLe (normalizeSymptom s)) (a :: as) with
      | nil =>
        rw [sortLe] at hs
        exact absurd hs (insertLe_ne_nil _ _ _)
      | cons best rest =>
        simp only [hs]
        have hb : best ∈ sortLe (matchLe (normalizeSymptom s)) (a :: as) := by
          rw [hs]
          exact List.mem_cons_self best rest
        have hmem2 : best ∈ a :: as := mem_of_mem_sortLe hb
        have hdbm : best ∈ symptomDatabase :=
          List.mem_of_mem_filter (hfound ▸ hmem2)
        exact (symptomDatabase_wf best hdbm).1

theorem getDefaultRecommendations_wf (s : String) :
    getDefaultRecommendations s ≠ [] ∧ (getDefaultRecommendations s).length ≤ 4 := by
  unfold getDefaultRecommendations
  cases hdb : dbLookup (normalizeSymptom s) with
  | some data =>
    simp only [hdb]
    obtain ⟨kv, hmem, hkv⟩ := dbLookup_some_mem hdb
    exact hkv ▸ ⟨(symptomDatabase_wf kv hmem).2.1, (symptomDatabase_wf kv hmem).2.2⟩
  | none =>
    simp only [hdb]
    cases hf : symptomDatabase.find? (matchesDb (normalizeSymptom s)) with
    | some kv =>
      simp only [hf]
      have hmem := List.mem_of_find?_eq_some hf
      exact ⟨(symptomDatabase_wf kv hmem).2.1, (symptomDatabase_wf kv hmem).2.2⟩
    | none =>
      simp only [hf]
      have h4 : ((keywordRecommendations (normalizeSymptom s)).take 4).length = 4 := by
        simp [List.length_take, keywordRecommendations_length]
      constructor
      · intro hnil
        rw [hnil] at h4
        exact absurd h4 (by simp)
      · exact h4.le

theorem getFallbackAnalysis_wf (s : String) :
    (getFallbackAnalysis s).possibleConditions ≠ [] ∧
    (getFallbackAnalysis s).recommendations ≠ [] ∧
    (getFallbackAnalysis s).recommendations.length ≤ 4 := by
  unfold getFallbackAnalysis
  cases hdb : dbLookup (normalizeSymptom s) with
  | some data =>
    simp only [hdb]
    obtain ⟨kv, hmem, hkv⟩ := dbLookup_some_mem hdb
    exact hkv ▸ symptomDatabase_wf kv hmem
  | none =>
    simp only [hdb]
    cases hf : symptomDatabase.find? (matchesDb (normalizeSymptom s)) with
    | some kv =>
      simp only [hf]
      exact symptomDatabase_wf kv (List.mem_of_find?_eq_some hf)
    | none =>
      simp only [hf]
      exact ⟨extractConditionsFromSymptoms_ne_nil _,
        (getDefaultRecommendations_wf _).1, (getDefaultRecommendations_wf _).2⟩

theorem parseAIResponse_wf (aiText s : String) :
    (parseAIResponse aiText s).possibleConditions ≠ [] ∧
    (parseAIResponse aiText s).recommendations.length ≤ 4 := by
  unfold parseAIResponse
  constructor
  · dsimp only
    split
    · rename_i hpos
      exact List.length_pos.mp hpos
    · simp
  · dsimp only
    cases hf : findLabeledChunk true "recommendation".data aiText.data with
    | some chunk =>
      simp only [hf]
      exact le_trans (List.length_take_le 3 _) (by norm_num)
    | none =>
      simp only [hf]
      exact (getDefaultRecommendations_wf (toLowerStr s)).2

theorem computeSubIndex_eq_none_of_outside (bps : List Breakpoint) (q : ℚ)
    (h : ∀ bp ∈ bps, ¬(bp.Clow ≤ q ∧ q ≤ bp.Chigh)) : computeSubIndex bps q = none := by
  induction bps with
  | nil => rfl
  | cons bp rest ih =>
    simp only [computeSubIndex]
    rw [if_neg (h bp (List.mem_cons_self bp rest))]
    exact ih (fun b hb => h b (List.mem_cons_of_mem _ hb))

theorem computeSubIndex_interpolates (bps : List Breakpoint) (bp : Breakpoint)
    (hs : bps.Pairwise (fun a b => a.Chigh < b.Clow)) (hmem : bp ∈ bps)
    (q : ℚ) (h1 : bp.Clow ≤ q) (h2 : q ≤ bp.Chigh) :
    computeSubIndex bps q =
      some (jsRound ((bp.Ihigh - bp.Ilow) / (bp.Chigh - bp.Clow) * (q - bp.Clow) + bp.Ilow)) := by
  induction bps with
  | nil => cases hmem
  | cons head rest ih =>
    rcases List.mem_cons.mp hmem with heq | hmem2
    · subst heq
      simp only [computeSubIndex]
      rw [if_pos ⟨h1, h2⟩]
    · have hlt : head.Chigh < bp.Clow := (List.pairwise_cons.mp hs).1 bp hmem2
      simp only [computeSubIndex]
      rw [if_neg (by rintro ⟨ha, hb⟩; linarith)]
      exact ih (List.pairwise_cons.mp hs).2 hmem2

theorem aqiFromTables_eq_max (pmA pmB : List Breakpoint) (c : AirComponents) :
    aqiFromTables pmA pmB (some c) =
      match (match c.pm2_5 with | some v => computeSubIndex pmA v | none => none),
            (match c.pm10 with | some v => computeSubIndex pmB v | none => none) with
      | some a, some b => some (max a b)
      | some a, none => some a
      | none, some b => some b
      | none, none => none := by
  unfold aqiFromTables
  dsimp only
  generalize (match c.pm2_5 with | some v => computeSubIndex pmA v | none => none) = s1
  generalize (match c.pm10 with | some v => computeSubIndex pmB v | none => none) = s2
  cases s1 <;> cases s2 <;> simp [List.filterMap]

theorem daysIffWeekly_of_mem_map (f : Reminder → Reminder)
    (hf : ∀ r, (f r).daysOfWeek = r.daysOfWeek ∧ (f r).repeatMode = r.repeatMode)
    (rs : List Reminder) (h : ∀ r ∈ rs, daysIffWeekly r) :
    ∀ r ∈ rs.map f, daysIffWeekly r := by
  intro r hr
  obtain ⟨x, hx, rfl⟩ := List.mem_map.mp hr
  unfold daysIffWeekly
  rw [(hf x).1, (hf x).2]
  exact h x hx

/-- C1: evidence of the divergence. A reminder triggered through the snooze
path (snooze due, its own time not matching the tick) keeps its
`nextSnoozeAt` after the trigger, and the immediately following scheduler
tick selects the same reminder again through the snooze check — the source
never clears a consumed `nextSnoozeAt`, while the spec requires the
post-trigger state to have it cleared. -/
theorem snoozePath_leaves_nextSnoozeAt_set :
    snoozeDue c1Rem c1TickA.nowMs = true ∧
    (c1Rem.time == c1TickA.currentTime) = false ∧
    selectTrigger [c1Rem] c1TickA = some c1Rem ∧
    (schedulerTick [c1Rem] c1TickA).map (fun r => r.nextSnoozeAt) = [some 1000] ∧
    (selectTrigger (schedulerTick [c1Rem] c1TickA) c1TickB).map (fun r => r.id) = some "r1" := by
  decide

/-- C2, counterexample: when the fresh time-matched reminder precedes the
snooze-due reminder in list order, the tick triggers the time-matched one,
not the snooze-due one — cross-reminder snooze priority fails as claimed. -/
theorem snooze_priority_cross_reminder_cx :
    c2Snoozer.enabled = true ∧
    snoozeDue c2Snoozer c2Tick.nowMs = true ∧
    c2Timed.enabled = true ∧
    (c2Timed.time == c2Tick.currentTime) = true ∧
    (c2Timed.lastTriggeredKey == some c2Tick.currentKey) = false ∧
    (c2Timed.id == c2Snoozer.id) = false ∧
    selectTrigger [c2Timed, c2Snoozer] c2Tick = some c2Timed := by
  decide

/-- C2, amended: the tick triggers the first eligible reminder in list
order; in particular, when an enabled snooze-due reminder is preceded only
by ineligible reminders it fires, and no other reminder of the list is
modified in that tick (at most one trigger per tick). -/
theorem tick_triggers_first_eligible_reminder
    (l1 l2 : List Reminder) (a : Reminder) (t : Tick)
    (henabled : a.enabled = true)
    (hsnooze : snoozeDue a t.nowMs = true)
    (hpre : ∀ r ∈ l1, eligible r t = false)
    (hid : ∀ r ∈ l1 ++ l2, (r.id == a.id) = false) :
    selectTrigger (l1 ++ a :: l2) t = some a ∧
    schedulerTick (l1 ++ a :: l2) t = l1 ++ triggerUpdate a t.currentKey :: l2 := by
  have ha : eligible a t = true := by simp [eligible, henabled, hsnooze]
  have hsel : selectTrigger (l1 ++ a :: l2) t = some a := by
    unfold selectTrigger
    rw [findFirst_append_of_all_neg _ _ _ hpre]
    simp [List.find?_cons, ha]
  refine ⟨hsel, ?_⟩
  unfold schedulerTick
  rw [hsel]
  dsimp only
  unfold triggerReminder
  rw [List.map_append, List.map_cons]
  have e1 : l1.map (fun x => if x.id == a.id then triggerUpdate x t.currentKey else x) = l1 :=
    map_eq_self_of_fixed _ (fun x hx => by simp [hid x (List.mem_append_left _ hx)])
  have e2 : l2.map (fun x => if x.id == a.id then triggerUpdate x t.currentKey else x) = l2 :=
    map_eq_self_of_fixed _ (fun x hx => by simp [hid x (List.mem_append_right _ hx)])
  have e3 : (if a.id == a.id then triggerUpdate a t.currentKey else a) =
      triggerUpdate a t.currentKey := by simp
  rw [e1, e2, e3]

/-- C2, witness: with the snooze-due reminder first and the time-matched one
second, the snooze-due reminder fires and the time-matched one is left
untouched. -/
theorem tick_triggers_first_eligible_reminder_witness :
    selectTrigger [c2Snoozer, c2Timed] c2Tick = some c2Snoozer ∧
    schedulerTick [c2Snoozer, c2Timed] c2Tick =
      [triggerUpdate c2Snoozer c2Tick.currentKey, c2Timed] :=
  tick_triggers_first_eligible_reminder [] [c2Timed] c2Snoozer c2Tick rfl (by decide)
    (fun r hr => absurd hr (List.not_mem_nil r))
    (by
      intro r hr
      simp only [List.nil_append, List.mem_singleton] at hr
      subst hr
      decide)

/-- C3, counterexample: a reminder whose `lastTriggeredKey` equals the
current composite key is nevertheless selected again in a later tick of the
same minute, because a still-set due `nextSnoozeAt` bypasses the dedup
check. -/
theorem same_minute_retrigger_via_snooze_cx :
    c3xRem.lastTriggeredKey = some c3Tick.currentKey ∧
    selectTrigger [c3xRem] c3Tick = some c3xRem := by
  decide

/-- C3, amended: a reminder whose `lastTriggeredKey` equals the tick's
composite key is never selected by that tick, provided it has no due snooze
(`nextSnoozeAt` unset, zero, or in the future) — so within one calendar
minute the time-match path fires a reminder at most once, however many
ticks occur. -/
theorem no_second_trigger_same_key (rs : List Reminder) (t : Tick) (r : Reminder)
    (hkey : r.lastTriggeredKey = some t.currentKey)
    (hsnooze : snoozeDue r t.nowMs = false) :
    selectTrigger rs t ≠ some r := by
  intro h
  unfold selectTrigger at h
  have hp := List.find?_some h
  simp [eligible, hkey, hsnooze] at hp

/-- C3, witness: the already-triggered reminder of the counterexample
scenario, with no snooze set, is not selected again in the same minute. -/
theorem no_second_trigger_same_key_witness :
    selectTrigger [c3Rem] c3Tick ≠ some c3Rem :=
  no_second_trigger_same_key [c3Rem] c3Tick c3Rem rfl rfl

/-- C9: loading a parsed storage value that is not an array of well-formed
reminder objects yields the empty in-memory list; in particular an array
with even one ill-formed element loads as `[]` — no subset is salvaged. -/
theorem load_fails_closed :
    (∀ j : Json, isReminderArray j = false → loadReminders j = []) ∧
    (∀ (items : List Json) (x : Json), x ∈ items → isReminderJson x = false →
      loadReminders (Json.arr items) = []) := by
  constructor
  · intro j hj
    cases j with
    | arr items =>
      simp only [isReminderArray] at hj
      simp [loadReminders, hj]
    | null => rfl
    | bool b => rfl
    | num q => rfl
    | str s => rfl
    | obj fields => rfl
  · intro items x hx hbad
    by_cases hall : items.all isReminderJson = true
    · exact absurd (List.all_eq_true.mp hall x hx) (by simp [hbad])
    · rw [Bool.not_eq_true] at hall
      simp [loadReminders, hall]

/-- C9, witness: an array holding one well-formed reminder object and one
`null` loads as the empty list, not as the singleton of the well-formed
element. -/
theorem load_fails_closed_witness :
    loadReminders (Json.arr [goodRemJson, Json.null]) = [] :=
  load_fails_closed.2 [goodRemJson, Json.null] Json.null
    (List.mem_cons_of_mem _ (List.mem_cons_self _ _)) rfl

/-- C10, counterexample: a stored element with `repeat = "daily"` and a
`daysOfWeek` field passes shape validation and is loaded wholesale, so the
rehydrated collection contains a reminder violating the
daysOfWeek-iff-weekly invariant. -/
theorem rehydration_weekly_invariant_cx :
    loadReminders (Json.arr [cxStoredElem]) = [cxStoredElem] ∧
    jsonHasDaysOfWeek cxStoredElem = true ∧
    jsonRepeatIsWeekly cxStoredElem = false :=
  ⟨rfl, rfl, rfl⟩

/-- C10, amended: the daysOfWeek-iff-weekly invariant holds for every
reminder created by `addReminder` and is preserved by toggling, deletion,
snoozing and the scheduler tick; rehydration from storage does not enforce
it, since shape validation never inspects `daysOfWeek`. -/
theorem weekly_invariant_after_create_and_mutations :
    (∀ (formTitle formTime : String) (formEnabled : Bool) (formRepeat : RepeatK)
        (formWeekDays : List Nat) (newId : String) (prev : List Reminder),
      (∀ r ∈ prev, daysIffWeekly r) →
      ∀ r ∈ addReminder formTitle formTime formEnabled formRepeat formWeekDays newId prev,
        daysIffWeekly r) ∧
    (∀ (rs : List Reminder) (rid : String), (∀ r ∈ rs, daysIffWeekly r) →
      ∀ r ∈ toggleReminder rs rid, daysIffWeekly r) ∧
    (∀ (rs : List Reminder) (rid : String), (∀ r ∈ rs, daysIffWeekly r) →
      ∀ r ∈ removeReminder rs rid, daysIffWeekly r) ∧
    (∀ (rs : List Reminder) (rid : String) (m now : Nat), (∀ r ∈ rs, daysIffWeekly r) →
      ∀ r ∈ snoozeActive rs rid m now, daysIffWeekly r) ∧
    (∀ (rs : List Reminder) (t : Tick), (∀ r ∈ rs, daysIffWeekly r) →
      ∀ r ∈ schedulerTick rs t, daysIffWeekly r) := by
  refine ⟨?_, ?_, ?_, ?_, ?_⟩
  · intro formTitle formTime formEnabled formRepeat formWeekDays newId prev hprev r hr
    unfold addReminder at hr
    split at hr
    · exact hprev r hr
    · rcases List.mem_append.mp hr with hmem | hmem
      · exact hprev r hmem
      · rw [List.mem_singleton] at hmem
        subst hmem
        unfold daysIffWeekly
        by_cases hrep : formRepeat = RepeatK.weekly <;> simp [hrep]
  · intro rs rid h
    exact daysIffWeekly_of_mem_map _ (fun r => by split <;> simp) rs h
  · intro rs rid h r hr
    exact h r (List.mem_of_mem_filter hr)
  · intro rs rid m now h
    exact daysIffWeekly_of_mem_map _ (fun r => by split <;> simp) rs h
  · intro rs t h
    unfold schedulerTick
    cases hsel : selectTrigger rs t with
    | none => exact h
    | some r0 =>
      unfold triggerReminder
      exact daysIffWeekly_of_mem_map _
        (fun r => by split <;> simp [triggerUpdate]) rs h

/-- C10, witness: a freshly created weekly reminder satisfies the
invariant. -/
theorem weekly_invariant_after_create_and_mutations_witness :
    ∀ r ∈ addReminder "Aspirin" "08:00" true RepeatK.weekly [2, 1] "id1" [], daysIffWeekly r :=
  weekly_invariant_after_create_and_mutations.1 "Aspirin" "08:00" true RepeatK.weekly
    [2, 1] "id1" [] (fun r hr => absurd hr (List.not_mem_nil r))

/-- C4, counterexample: for the input `"nausea and stomach pain"` there is
no exact key, both `"nausea"` (6 characters) and `"stomach pain"` (12
characters, the unique longest match) match by substring, yet the fallback
does not return the fields of the longest matching key. -/
theorem substring_match_longest_key_cx :
    dbLookup (normalizeSymptom "nausea and stomach pain") = none ∧
    (symptomDatabase.get ⟨5, by decide⟩).1 = "stomach pain" ∧
    ("stomach pain" : String).length = 12 ∧
    matchesDb (normalizeSymptom "nausea and stomach pain") (symptomDatabase.get ⟨5, by decide⟩) = true ∧
    symptomDatabase.all (fun kv =>
      !(matchesDb (normalizeSymptom "nausea and stomach pain") kv) ||
        decide (kv.1.length ≤ 12)) = true ∧
    getFallbackAnalysis "nausea and stomach pain" ≠
      { possibleConditions := (symptomDatabase.get ⟨5, by decide⟩).2.conditions,
        recommendations := (symptomDatabase.get ⟨5, by decide⟩).2.recommendations,
        severity := (symptomDatabase.get ⟨5, by decide⟩).2.severity,
        advice := (symptomDatabase.get ⟨5, by decide⟩).2.advice } := by
  decide

/-- C4, amended: when the normalised input matches no key exactly but some
key matches by substring, the fallback returns the fields of the first
matching key in the knowledge base's insertion order (not the longest
match). -/
theorem substring_match_first_key_in_order (s : String) (i : Nat)
    (hi : i < symptomDatabase.length)
    (hnoexact : dbLookup (normalizeSymptom s) = none)
    (hpre : ∀ kv ∈ symptomDatabase.take i, matchesDb (normalizeSymptom s) kv = false)
    (hmatch : matchesDb (normalizeSymptom s) (symptomDatabase.get ⟨i, hi⟩) = true) :
    getFallbackAnalysis s =
      { possibleConditions := (symptomDatabase.get ⟨i, hi⟩).2.conditions,
        recommendations := (symptomDatabase.get ⟨i, hi⟩).2.recommendations,
        severity := (symptomDatabase.get ⟨i, hi⟩).2.severity,
        advice := (symptomDatabase.get ⟨i, hi⟩).2.advice } := by
  have hdecomp : symptomDatabase =
      symptomDatabase.take i ++ symptomDatabase.get ⟨i, hi⟩ :: symptomDatabase.drop (i + 1) := by
    conv_lhs => rw [← List.take_append_drop i symptomDatabase]
    rw [List.drop_eq_get_cons hi]
  have hfind : symptomDatabase.find? (matchesDb (normalizeSymptom s)) =
      some (symptomDatabase.get ⟨i, hi⟩) := by
    conv_lhs => rw [hdecomp]
    rw [findFirst_append_of_all_neg _ _ _ hpre, List.find?_cons_of_pos _ hmatch]
  unfold getFallbackAnalysis
  simp only [hnoexact, hfind]

/-- C4, witness: `"nausea and stomach pain"` matches none of the first three
keys, matches the fourth key `"nausea"`, and the fallback returns exactly
the `"nausea"` entry. -/
theorem substring_match_first_key_in_order_witness :
    getFallbackAnalysis "nausea and stomach pain" =
      { possibleConditions := (symptomDatabase.get ⟨3, by decide⟩).2.conditions,
        recommendations := (symptomDatabase.get ⟨3, by decide⟩).2.recommendations,
        severity := (symptomDatabase.get ⟨3, by decide⟩).2.severity,
        advice := (symptomDatabase.get ⟨3, by decide⟩).2.advice } :=
  substring_match_first_key_in_order "nausea and stomach pain" 3 (by decide) (by decide)
    (by
      intro kv hkv
      have h : (symptomDatabase.take 3).all
          (fun kv => !(matchesDb (normalizeSymptom "nausea and stomach pain") kv)) = true := by
        decide
      simpa using List.all_eq_true.mp h kv hkv)
    (by decide)

/-- C5, counterexample: for the input `"constipation"` the fallback returns
the knowledge-base entry's stored severity `mild`, while the
severity-keyword scan of the input yields `moderate` — the scan does not
determine the severity on the exact-match path. -/
theorem fallback_severity_db_overrides_scan_cx :
    (getFallbackAnalysis "constipation").severity = Severity.mild ∧
    assessSeverity (normalizeSymptom "constipation") = Severity.moderate := by
  decide

/-- C5, amended: the returned severity equals the severity-keyword scan of
the normalised input exactly on the residual path — when the input matches
no knowledge-base key exactly nor by substring (keyword-category fallback
and generic default included); on a knowledge-base match the entry's stored
severity is returned instead. -/
theorem fallback_severity_scan_when_unmatched (s : String)
    (h1 : dbLookup (normalizeSymptom s) = none)
    (h2 : symptomDatabase.find? (matchesDb (normalizeSymptom s)) = none) :
    (getFallbackAnalysis s).severity = assessSeverity (normalizeSymptom s) := by
  unfold getFallbackAnalysis
  simp only [h1, h2]

/-- C5, witness: the unmatched input `"xyzzy123"` gets its severity from the
keyword scan. -/
theorem fallback_severity_scan_when_unmatched_witness :
    (getFallbackAnalysis "xyzzy123").severity = assessSeverity (normalizeSymptom "xyzzy123") :=
  fallback_severity_scan_when_unmatched "xyzzy123" (by decide) (by decide)

/-- C6, counterexample: a remote response text whose RECOMMENDATIONS field
holds only a separator parses to an analysis with an empty recommendations
list — the output guarantee fails on the labeled-field parser path. -/
theorem parser_empty_recommendations_cx :
    resultRecommendations (analyzeSymptoms "headache"
      (RemoteOutcome.generatedText "RECOMMENDATIONS:;")) = some [] := by
  decide

/-- C6, amended: for every input that is non-empty after trimming and every
remote outcome, the analysis never throws and returns a result with a
non-empty conditions list, a recommendations list of at most 4 items, one
severity tier and one advice string; the recommendations list is moreover
non-empty whenever the result is not built by the labeled-field parser
(the parser can produce an empty list from a response whose
RECOMMENDATIONS field yields no items). -/
theorem analyzeSymptoms_total_wellformed (symptoms : String) (remote : RemoteOutcome)
    (h : trimStr symptoms ≠ "") :
    ∃ r, analyzeSymptoms symptoms remote = Except.ok r ∧
      r.possibleConditions ≠ [] ∧
      r.recommendations.length ≤ 4 ∧
      ((∀ u, remote ≠ RemoteOutcome.generatedText u) → r.recommendations ≠ []) := by
  have hb : (trimStr symptoms == "") = false := beq_eq_false_iff_ne.mpr h
  cases remote with
  | generatedText u =>
    refine ⟨parseAIResponse u symptoms, ?_, (parseAIResponse_wf u symptoms).1,
      (parseAIResponse_wf u symptoms).2, ?_⟩
    · simp [analyzeSymptoms, hb]
    · intro hall
      exact absurd rfl (hall u)
  | failed =>
    exact ⟨getFallbackAnalysis symptoms, by simp [analyzeSymptoms, hb],
      (getFallbackAnalysis_wf symptoms).1, (getFallbackAnalysis_wf symptoms).2.2,
      fun _ => (getFallbackAnalysis_wf symptoms).2.1⟩
  | unexpectedShape =>
    exact ⟨getFallbackAnalysis symptoms, by simp [analyzeSymptoms, hb],
      (getFallbackAnalysis_wf symptoms).1, (getFallbackAnalysis_wf symptoms).2.2,
      fun _ => (getFallbackAnalysis_wf symptoms).2.1⟩

/-- C6, witness: the non-empty input `"headache"` on the fallback path
yields a fully-formed result. -/
theorem analyzeSymptoms_total_wellformed_witness :
    ∃ r, analyzeSymptoms "headache" RemoteOutcome.failed = Except.ok r ∧
      r.possibleConditions ≠ [] ∧
      r.recommendations.length ≤ 4 ∧
      ((∀ u, RemoteOutcome.failed ≠ RemoteOutcome.generatedText u) → r.recommendations ≠ []) :=
  analyzeSymptoms_total_wellformed "headache" RemoteOutcome.failed (by decide)

/-- C7: under either standard the overall index is the maximum of the
PM2.5 and PM10 sub-indices where computed; a concentration outside every
interval of its table contributes no sub-index (shown in general, in the
US PM2.5 gap strictly between 12.0 and 12.1, and above the top breakpoint
500.4); and with no computable sub-index the overall index is `none`, not
zero. -/
theorem aqi_dominant_pollutant_and_exclusion :
    (∀ c : AirComponents, usAqiFromComponents (some c) =
      match (match c.pm2_5 with | some v => computeSubIndex usPm25Breaks v | none => none),
            (match c.pm10 with | some v => computeSubIndex usPm10Breaks v | none => none) with
      | some a, some b => some (max a b)
      | some a, none => some a
      | none, some b => some b
      | none, none => none) ∧
    (∀ c : AirComponents, indiaAqiFromComponents (some c) =
      match (match c.pm2_5 with | some v => computeSubIndex indiaPm25Breaks v | none => none),
            (match c.pm10 with | some v => computeSubIndex indiaPm10Breaks v | none => none) with
      | some a, some b => some (max a b)
      | some a, none => some a
      | none, some b => some b
      | none, none => none) ∧
    (∀ (bps : List Breakpoint) (q : ℚ), (∀ bp ∈ bps, ¬(bp.Clow ≤ q ∧ q ≤ bp.Chigh)) →
      computeSubIndex bps q = none) ∧
    (∀ q : ℚ, 12 < q → q < 121/10 → computeSubIndex usPm25Breaks q = none) ∧
    (∀ q : ℚ, 5004/10 < q → computeSubIndex usPm25Breaks q = none) ∧
    usAqiFromComponents none = none ∧
    indiaAqiFromComponents none = none := by
  refine ⟨fun c => aqiFromTables_eq_max _ _ c, fun c => aqiFromTables_eq_max _ _ c,
    computeSubIndex_eq_none_of_outside, ?_, ?_, rfl, rfl⟩
  · intro q hgt hlt
    simp only [usPm25Breaks, computeSubIndex]
    split_ifs with h1 h2 h3 h4 h5 h6 h7
    · exfalso; rcases h1 with ⟨ha, hb⟩; linarith
    · exfalso; rcases h2 with ⟨ha, hb⟩; linarith
    · exfalso; rcases h3 with ⟨ha, hb⟩; linarith
    · exfalso; rcases h4 with ⟨ha, hb⟩; linarith
    · exfalso; rcases h5 with ⟨ha, hb⟩; linarith
    · exfalso; rcases h6 with ⟨ha, hb⟩; linarith
    · exfalso; rcases h7 with ⟨ha, hb⟩; linarith
    · rfl
  · intro q hgt
    simp only [usPm25Breaks, computeSubIndex]
    split_ifs with h1 h2 h3 h4 h5 h6 h7
    · exfalso; rcases h1 with ⟨ha, hb⟩; linarith
    · exfalso; rcases h2 with ⟨ha, hb⟩; linarith
    · exfalso; rcases h3 with ⟨ha, hb⟩; linarith
    · exfalso; rcases h4 with ⟨ha, hb⟩; linarith
    · exfalso; rcases h5 with ⟨ha, hb⟩; linarith
    · exfalso; rcases h6 with ⟨ha, hb⟩; linarith
    · exfalso; rcases h7 with ⟨ha, hb⟩; linarith
    · rfl

/-- C7, witness: the US PM2.5 reading 12.05, strictly inside the gap
between 12.0 and 12.1, gets no sub-index. -/
theorem aqi_dominant_pollutant_and_exclusion_witness :
    computeSubIndex usPm25Breaks (1205/100) = none :=
  aqi_dominant_pollutant_and_exclusion.2.2.2.1 (1205/100) (by norm_num) (by norm_num)

/-- C8: for each of the four breakpoint tables, a concentration inside an
interval `[Clow, Chigh]` mapped to `[Ilow, Ihigh]` gets the sub-index
`round((Ihigh - Ilow) / (Chigh - Clow) * (C - Clow) + Ilow)`; in particular
PM2.5 = 12.0 under the US table gives exactly 50. -/
theorem subIndex_linear_interpolation :
    (∀ bp ∈ usPm25Breaks, ∀ q : ℚ, bp.Clow ≤ q → q ≤ bp.Chigh →
      computeSubIndex usPm25Breaks q =
        some (jsRound ((bp.Ihigh - bp.Ilow) / (bp.Chigh - bp.Clow) * (q - bp.Clow) + bp.Ilow))) ∧
    (∀ bp ∈ usPm10Breaks, ∀ q : ℚ, bp.Clow ≤ q → q ≤ bp.Chigh →
      computeSubIndex usPm10Breaks q =
        some (jsRound ((bp.Ihigh - bp.Ilow) / (bp.Chigh - bp.Clow) * (q - bp.Clow) + bp.Ilow))) ∧
    (∀ bp ∈ indiaPm25Breaks, ∀ q : ℚ, bp.Clow ≤ q → q ≤ bp.Chigh →
      computeSubIndex indiaPm25Breaks q =
        some (jsRound ((bp.Ihigh - bp.Ilow) / (bp.Chigh - bp.Clow) * (q - bp.Clow) + bp.Ilow))) ∧
    (∀ bp ∈ indiaPm10Breaks, ∀ q : ℚ, bp.Clow ≤ q → q ≤ bp.Chigh →
      computeSubIndex indiaPm10Breaks q =
        some (jsRound ((bp.Ihigh - bp.Ilow) / (bp.Chigh - bp.Clow) * (q - bp.Clow) + bp.Ilow))) ∧
    computeSubIndex usPm25Breaks 12 = some 50 := by
  have hus25 : usPm25Breaks.Pairwise (fun a b => a.Chigh < b.Clow) := by
    norm_num [usPm25Breaks, List.pairwise_cons]
  have hus10 : usPm10Breaks.Pairwise (fun a b => a.Chigh < b.Clow) := by
    norm_num [usPm10Breaks, List.pairwise_cons]
  have hin25 : indiaPm25Breaks.Pairwise (fun a b => a.Chigh < b.Clow) := by
    norm_num [indiaPm25Breaks, List.pairwise_cons]
  have hin10 : indiaPm10Breaks.Pairwise (fun a b => a.Chigh < b.Clow) := by
    norm_num [indiaPm10Breaks, List.pairwise_cons]
  refine ⟨?_, ?_, ?_, ?_, ?_⟩
  · intro bp hbp q h1 h2
    exact computeSubIndex_interpolates _ bp hus25 hbp q h1 h2
  · intro bp hbp q h1 h2
    exact computeSubIndex_interpolates _ bp hus10 hbp q h1 h2
  · intro bp hbp q h1 h2
    exact computeSubIndex_interpolates _ bp hin25 hbp q h1 h2
  · intro bp hbp q h1 h2
    exact computeSubIndex_interpolates _ bp hin10 hbp q h1 h2
  · norm_num [computeSubIndex, usPm25Breaks, jsRound]

/-- C8, witness: US PM2.5 = 20 lies in the second interval and interpolates
to the stated formula. -/
theorem subIndex_linear_interpolation_witness :
    computeSubIndex usPm25Breaks 20 =
      some (jsRound ((100 - 51) / (354/10 - 121/10) * (20 - 121/10) + 51)) :=
  subIndex_linear_interpolation.1 ⟨121/10, 354/10, 51, 100⟩ (by norm_num [usPm25Breaks]) 20
    (by norm_num) (by norm_num)
